import Mathlib

/-!
Shallow embedding of the HTTP binding of a CASPaxos proposer
(`httpapi/http_proposer.go`).  Each HTTP handler is modelled as a pure
function from the data it reads (request body, request headers, the result
of the underlying proposer call) to the HTTP response it writes.  The
underlying `protocol.Proposer` and the helper functions `setBallot`,
`getBallot`, `setAge` and `url.Parse` are not part of the source file; the
proposer round and the header codecs are modelled from the spec, and URL
parsing is passed in as a parameter.
-/

namespace Httpapi

/-- A register state: an opaque byte sequence (`[]byte` in the source). -/
abbrev State := List Nat

/-- Ballot: composite (counter, proposerID), per the spec data model. -/
structure Ballot where
  counter : Nat
  id : String
deriving DecidableEq

/-- Errors the proposer can return: `protocol.ConflictError`, a quorum
failure, or any other failure (carrying only its message). -/
inductive ProposerError where
  | conflictError (b : Ballot)
  | quorumError
  | other (msg : String)
deriving DecidableEq

/-- Modelled from the spec: the textual rendering of a proposer error
(`err.Error()` in the source); the exact text lives outside the excerpt
and no handler inspects it. -/
def ProposerError.message : ProposerError → String
  | .conflictError b => "conflict: higher ballot " ++ toString b.counter ++ "/" ++ b.id
  | .quorumError => "quorum failure"
  | .other msg => msg

/-- The type switch `err.(protocol.ConflictError)` used by `handleCAS`. -/
def ProposerError.isConflict : ProposerError → Bool
  | .conflictError _ => true
  | _ => false

/-- An HTTP response body: either raw register state written by `w.Write`,
or text written by `http.Error` / `fmt.Fprintln`. -/
inductive RespBody where
  | state (s : State)
  | text (t : String)
deriving DecidableEq

/-- The observable HTTP response: status code, body, and the headers the
handler sets explicitly. -/
structure HTTPResponse where
  status : Nat
  body : RespBody
  headers : List (String × String)
deriving DecidableEq

def statusOK : Nat := 200
def statusBadRequest : Nat := 400
def statusPreconditionFailed : Nat := 412
def statusInternalServerError : Nat := 500

/-- The response written by `http.Error(w, msg, code)`: the status code,
and the message followed by a newline as the body. -/
def httpError (msg : String) (code : Nat) : HTTPResponse :=
  { status := code, body := .text (msg ++ "\n"), headers := [] }

def headerBallotCounter : String := "X-Ballot-Counter"
def headerBallotID : String := "X-Ballot-ID"
def headerAgeCounter : String := "X-Age-Counter"
def headerAgeID : String := "X-Age-ID"

/-- Modelled from the spec: `setBallot` (absent from the excerpt) encodes
the installed ballot into response headers as a (counter, proposerID)
pair — "Ballot and Age values cross the boundary as an encoded
(counter, proposerID) pair". -/
def setBallot (b : Ballot) : List (String × String) :=
  [(headerBallotCounter, toString b.counter), (headerBallotID, b.id)]

/-- Modelled from the spec: `setAge` (absent from the excerpt) encodes the
returned Age into response headers as a (counter, proposerID) pair. -/
def setAge (age : Ballot) : List (String × String) :=
  [(headerAgeCounter, toString age.counter), (headerAgeID, age.id)]

/-- First value recorded for key `k` in an ordered header list. -/
def lookupHeader (h : List (String × String)) (k : String) : Option String :=
  match h with
  | [] => none
  | (k2, v) :: rest => if k2 = k then some v else lookupHeader rest k

/-- Modelled from the spec: `getBallot` (absent from the excerpt) decodes
a Ballot from request headers as a (counter, proposerID) pair, defaulting
missing or unreadable fields. -/
def getBallot (h : List (String × String)) : Ballot :=
  { counter := ((lookupHeader h headerBallotCounter).bind String.toNat?).getD 0,
    id := (lookupHeader h headerBallotID).getD "" }

/-- `sep` begins `buf` (byte-for-byte). -/
def startsWith : List Nat → List Nat → Bool
  | _, [] => true
  | [], _ :: _ => false
  | a :: as, b :: bs => a == b && startsWith as bs

/-- Index of the first occurrence of `sep` in `buf`, if any. -/
def findSep (sep : List Nat) : List Nat → Option Nat
  | [] => if startsWith [] sep then some 0 else none
  | b :: rest =>
      if startsWith (b :: rest) sep then some 0
      else (findSep sep rest).map (· + 1)

/-- `bytes.SplitN(buf, sep, 2)` for non-empty `sep`: split around the
first occurrence of `sep`; if `sep` does not occur, the result is the
single group `[buf]`. -/
def splitN2 (buf sep : List Nat) : List (List Nat) :=
  match findSep sep buf with
  | none => [buf]
  | some i => [buf.take i, buf.drop (i + sep.length)]

/-- The two-byte separator `{'\n', '\n'}` used by `handleCAS`. -/
def sepNLNL : List Nat := [10, 10]

/-- The identity update function built by `handleGet`:
`read = func(x []byte) []byte { return x }`. -/
def readUpdate : State → State := fun x => x

/-- The conditional-update closure built by `handleCAS` (and, with
`next = []`, by `handleDel`):
`func(x []byte) []byte { if bytes.Equal(x, curr) { return next }; return x }`. -/
def casUpdate (curr next : State) : State → State :=
  fun x => if x = curr then next else x

/-- Modelled from the spec: a `Propose` round that completes normally
against base state `base` installs ballot `b` and state `updateFun base`,
returning both (spec §4.1 steps 3–4); `protocol.Proposer` itself is
outside the excerpt. -/
def proposeRound (base : State) (b : Ballot) :
    (State → State) → Except ProposerError (State × Ballot) :=
  fun f => Except.ok (f base, b)

/-- `handleGet`: proposes the identity update; any proposer error maps to
500; on success the state is the body and the ballot goes into headers. -/
def handleGet
    (propose : (State → State) → Except ProposerError (State × Ballot)) :
    HTTPResponse :=
  match propose readUpdate with
  | .error e => httpError e.message statusInternalServerError
  | .ok (state, b) => { status := statusOK, body := .state state, headers := setBallot b }

/-- `handleCAS`: splits the body at the first `"\n\n"` into
(curr, next), proposes the conditional swap, maps `ConflictError` to 412
and other errors to 500.  The out-of-range index accesses `groups[0]` /
`groups[1]` are modelled in the `Option` monad: `none` is a panic. -/
def handleCAS (buf : List Nat)
    (propose : (State → State) → Except ProposerError (State × Ballot)) :
    Option HTTPResponse := do
  let groups := splitN2 buf sepNLNL
  let curr ← groups[0]?
  let next ← groups[1]?
  let cas := casUpdate curr next
  some (match propose cas with
    | .error e =>
        if e.isConflict then httpError e.message statusPreconditionFailed
        else httpError e.message statusInternalServerError
    | .ok (state, b) =>
        { status := statusOK, body := .state state, headers := setBallot b })

/-- `handleDel`: the whole body is the expected value `curr`; proposes the
conditional delete (`next = []byte{}`), maps any proposer error to 500,
then post-hoc compares the returned state to the empty target and answers
412 `"conflict"` on mismatch. -/
def handleDel (curr : List Nat)
    (propose : (State → State) → Except ProposerError (State × Ballot)) :
    HTTPResponse :=
  let next : State := []
  let cas := casUpdate curr next
  match propose cas with
  | .error e => httpError e.message statusInternalServerError
  | .ok (state, b) =>
      if state ≠ next then httpError "conflict" statusPreconditionFailed
      else { status := statusOK, body := .state state, headers := setBallot b }

/-- A parsed replica endpoint descriptor (`url.URL`); only its identity
matters to the binding, which wraps it in an `AcceptorClient`. -/
structure URL where
  raw : String
deriving DecidableEq

/-- `handleAddAccepter`: parse the body as a URL (parser passed in, since
`url.Parse` is a stdlib function); on parse failure answer 400 without
calling the proposer; otherwise call `AddAccepter` and answer 500 on its
error or `"OK\n"` on success.  The second component records the targets
actually handed to the proposer's membership operation. -/
def handleAddAccepter (parse : String → Except String URL) (body : String)
    (addAccepter : URL → Option String) : HTTPResponse × List URL :=
  match parse body with
  | .error msg => (httpError msg statusBadRequest, [])
  | .ok u =>
      match addAccepter u with
      | some emsg => (httpError emsg statusInternalServerError, [u])
      | none => ({ status := statusOK, body := .text "OK\n", headers := [] }, [u])

/-- `handleAddPreparer`: same shape as `handleAddAccepter`, invoking
`AddPreparer`. -/
def handleAddPreparer (parse : String → Except String URL) (body : String)
    (addPreparer : URL → Option String) : HTTPResponse × List URL :=
  match parse body with
  | .error msg => (httpError msg statusBadRequest, [])
  | .ok u =>
      match addPreparer u with
      | some emsg => (httpError emsg statusInternalServerError, [u])
      | none => ({ status := statusOK, body := .text "OK\n", headers := [] }, [u])

/-- `handleRemovePreparer`: same shape, invoking `RemovePreparer`. -/
def handleRemovePreparer (parse : String → Except String URL) (body : String)
    (removePreparer : URL → Option String) : HTTPResponse × List URL :=
  match parse body with
  | .error msg => (httpError msg statusBadRequest, [])
  | .ok u =>
      match removePreparer u with
      | some emsg => (httpError emsg statusInternalServerError, [u])
      | none => ({ status := statusOK, body := .text "OK\n", headers := [] }, [u])

/-- `handleRemoveAccepter`: same shape, invoking `RemoveAccepter`. -/
def handleRemoveAccepter (parse : String → Except String URL) (body : String)
    (removeAccepter : URL → Option String) : HTTPResponse × List URL :=
  match parse body with
  | .error msg => (httpError msg statusBadRequest, [])
  | .ok u =>
      match removeAccepter u with
      | some emsg => (httpError emsg statusInternalServerError, [u])
      | none => ({ status := statusOK, body := .text "OK\n", headers := [] }, [u])

/-- `handleFullIdentityRead`: any proposer error maps to 500; on success
the state is written as the body (no ballot header is set). -/
def handleFullIdentityRead (firesult : Except ProposerError State) : HTTPResponse :=
  match firesult with
  | .error e => httpError e.message statusInternalServerError
  | .ok state => { status := statusOK, body := .state state, headers := [] }

/-- `handleFastForwardIncrement`: decodes the tombstone ballot from the
request headers, calls the proposer, maps any error to 500, and on success
encodes the returned Age into the response headers and writes `"OK\n"`. -/
def handleFastForwardIncrement (reqHeaders : List (String × String))
    (ffi : Ballot → Except ProposerError Ballot) : HTTPResponse :=
  let tombstone := getBallot reqHeaders
  match ffi tombstone with
  | .error e => httpError e.message statusInternalServerError
  | .ok age => { status := statusOK, body := .text "OK\n", headers := setAge age }

/-- C6: the get handler proposes the identity update function (it maps
every state to itself), so a round that completes normally returns the
register's current value unchanged as the response body, with the
installed ballot in the headers. -/
theorem C6_get_identity_read :
    (∀ x : State, readUpdate x = x) ∧
    ∀ (base : State) (b : Ballot),
      handleGet (proposeRound base b) =
        { status := statusOK, body := RespBody.state base, headers := setBallot b } := by
  exact ⟨fun _ => rfl, fun _ _ => rfl⟩

/-- C7: the conditional-delete closure built by the delete handler maps a
base state equal to the expected value to the empty state, and leaves any
other base state unchanged. -/
theorem C7_del_update (curr x : State) :
    (x = curr → casUpdate curr [] x = []) ∧
    (x ≠ curr → casUpdate curr [] x = x) := by
  constructor <;> intro h <;> simp [casUpdate, h]

/-- C7 witness: concrete matching and non-matching base states. -/
theorem C7_del_update_witness :
    casUpdate [2] [] [2] = ([] : State) ∧ casUpdate [2] [] [3] = [3] :=
  ⟨(C7_del_update [2] [2]).1 rfl, (C7_del_update [2] [3]).2 (by decide)⟩

/-- C9: when the register's current state is already empty, the delete
handler answers 200 with the empty state as body, whatever expected value
the request body carried: the conditional-delete closure fixes the empty
state and the post-hoc check then sees state = empty target. -/
theorem C9_del_already_empty (curr : List Nat) (b : Ballot) :
    handleDel curr (proposeRound [] b) =
      { status := statusOK, body := RespBody.state [], headers := setBallot b } := by
  simp [handleDel, proposeRound, casUpdate]

/-- C10: the conditional-update closure shared by the CAS and delete
handlers is idempotent, and is the identity when the expected value equals
the replacement. -/
theorem C10_cas_idempotent (curr next x : State) :
    casUpdate curr next (casUpdate curr next x) = casUpdate curr next x ∧
    casUpdate curr curr x = x := by
  constructor
  · by_cases h : x = curr <;> by_cases h2 : next = curr <;> simp [casUpdate, h, h2]
  · by_cases h : x = curr <;> simp [casUpdate, h]

/-- C2: when the CAS body splits into (curr, next), the closure handed to
Propose returns `next` exactly on base states equal to `curr` and the base
state unchanged otherwise; a round that completes normally yields a 200
response carrying the updated state as body and the installed ballot in
the headers. -/
theorem C2_cas_conditional_swap (buf : List Nat) (curr next x base : State) (b : Ballot)
    (hsplit : splitN2 buf sepNLNL = [curr, next]) :
    (x = curr → casUpdate curr next x = next) ∧
    (x ≠ curr → casUpdate curr next x = x) ∧
    handleCAS buf (proposeRound base b) =
      some { status := statusOK, body := RespBody.state (casUpdate curr next base),
             headers := setBallot b } := by
  refine ⟨fun h => by simp [casUpdate, h], fun h => by simp [casUpdate, h], ?_⟩
  simp [handleCAS, hsplit, proposeRound]

/-- C2 witness: body `"a\n\nb"` (bytes [97,10,10,98]), matching and
non-matching base states, and the full handler run. -/
theorem C2_cas_conditional_swap_witness :
    casUpdate [97] [98] [97] = ([98] : State) ∧
    casUpdate [97] [98] [99] = ([99] : State) ∧
    handleCAS [97, 10, 10, 98] (proposeRound [99] ⟨1, "p"⟩) =
      some { status := statusOK, body := RespBody.state (casUpdate [97] [98] [99]),
             headers := setBallot ⟨1, "p"⟩ } :=
  ⟨(C2_cas_conditional_swap [97, 10, 10, 98] [97] [98] [97] [99] ⟨1, "p"⟩ (by decide)).1 rfl,
   (C2_cas_conditional_swap [97, 10, 10, 98] [97] [98] [99] [99] ⟨1, "p"⟩ (by decide)).2.1
     (by decide),
   (C2_cas_conditional_swap [97, 10, 10, 98] [97] [98] [99] [99] ⟨1, "p"⟩ (by decide)).2.2⟩

/-- C3: when the proposer round of a delete succeeds, the handler compares
the returned state to the empty target: on mismatch it answers 412 with
body `"conflict"`, on match it answers 200 with the (empty) state and the
installed ballot. -/
theorem C3_del_posthoc_check (curr state : State) (b : Ballot)
    (propose : (State → State) → Except ProposerError (State × Ballot))
    (h : propose (casUpdate curr []) = Except.ok (state, b)) :
    (state ≠ [] → handleDel curr propose = httpError "conflict" statusPreconditionFailed) ∧
    (state = [] → handleDel curr propose =
      { status := statusOK, body := RespBody.state state, headers := setBallot b }) := by
  constructor <;> intro hs <;> simp [handleDel, h, hs]

/-- C3 witness: a mismatching delete (state "1" survives) answers 412
`"conflict"`; a matching delete answers 200 with the empty state. -/
theorem C3_del_posthoc_check_witness :
    handleDel [2] (proposeRound [1] ⟨1, "p"⟩) = httpError "conflict" statusPreconditionFailed ∧
    handleDel [1] (proposeRound [1] ⟨1, "p"⟩) =
      { status := statusOK, body := RespBody.state [], headers := setBallot ⟨1, "p"⟩ } :=
  ⟨(C3_del_posthoc_check [2] [1] ⟨1, "p"⟩ (proposeRound [1] ⟨1, "p"⟩) rfl).1 (by decide),
   (C3_del_posthoc_check [1] [] ⟨1, "p"⟩ (proposeRound [1] ⟨1, "p"⟩) rfl).2 rfl⟩

/-- C1 counterexample: the get handler calls Propose, yet maps a
`ConflictError` to 500, not to 412 — refuting the claim that every handler
calling Propose maps `ConflictError` to precondition-failed. -/
theorem C1_counterexample :
    (handleGet (fun _ => Except.error (ProposerError.conflictError ⟨1, "p"⟩))).status
        = statusInternalServerError ∧
    ¬ (handleGet (fun _ => Except.error (ProposerError.conflictError ⟨1, "p"⟩))).status
        = statusPreconditionFailed := by
  constructor
  · rfl
  · decide

/-- C1 (amended): only the CAS handler distinguishes `ConflictError`,
mapping it to 412 and any other Propose failure to 500; the get, del,
full-identity-read and fast-forward-increment handlers map every proposer
error — `ConflictError` included — to 500. -/
theorem C1_amended_error_mapping (e : ProposerError) (curr : State)
    (reqHeaders : List (String × String)) (buf : List Nat) (currG nextG : State)
    (hsplit : splitN2 buf sepNLNL = [currG, nextG]) :
    handleGet (fun _ => Except.error e) = httpError e.message statusInternalServerError ∧
    handleDel curr (fun _ => Except.error e) = httpError e.message statusInternalServerError ∧
    handleFullIdentityRead (Except.error e) = httpError e.message statusInternalServerError ∧
    handleFastForwardIncrement reqHeaders (fun _ => Except.error e)
      = httpError e.message statusInternalServerError ∧
    handleCAS buf (fun _ => Except.error e) =
      some (if e.isConflict then httpError e.message statusPreconditionFailed
            else httpError e.message statusInternalServerError) := by
  refine ⟨rfl, rfl, rfl, rfl, ?_⟩
  simp [handleCAS, hsplit]

/-- C1 amended witness: at a quorum error, every handler answers 500. -/
theorem C1_amended_error_mapping_witness :
    handleGet (fun _ => Except.error ProposerError.quorumError)
      = httpError ProposerError.quorumError.message statusInternalServerError ∧
    handleDel [] (fun _ => Except.error ProposerError.quorumError)
      = httpError ProposerError.quorumError.message statusInternalServerError ∧
    handleFullIdentityRead (Except.error ProposerError.quorumError)
      = httpError ProposerError.quorumError.message statusInternalServerError ∧
    handleFastForwardIncrement [] (fun _ => Except.error ProposerError.quorumError)
      = httpError ProposerError.quorumError.message statusInternalServerError ∧
    handleCAS [10, 10] (fun _ => Except.error ProposerError.quorumError) =
      some (if ProposerError.quorumError.isConflict
            then httpError ProposerError.quorumError.message statusPreconditionFailed
            else httpError ProposerError.quorumError.message statusInternalServerError) :=
  C1_amended_error_mapping ProposerError.quorumError [] [] [10, 10] [] [] (by decide)

/-- C4 counterexample: on a body without the `"\n\n"` separator the split
yields the single group `[buf]`, the access `groups[1]` is out of range,
and the handler panics (modelled as `none`) — refuting the claim that the
handler is total over all request bodies. -/
theorem C4_counterexample :
    handleCAS [97] (proposeRound [] ⟨1, "p"⟩) = none ∧
    splitN2 [97] sepNLNL = [[97]] ∧
    ([[97]] : List (List Nat))[1]? = none := by
  decide

/-- C4 (amended): the CAS handler completes without panicking exactly when
the body contains the separator; when the separator is absent the split
yields the single group `[buf]` and the `groups[1]` access is out of
bounds. -/
theorem C4_amended_totality (buf : List Nat)
    (propose : (State → State) → Except ProposerError (State × Ballot)) :
    (handleCAS buf propose = none ↔ findSep sepNLNL buf = none) ∧
    (findSep sepNLNL buf = none → splitN2 buf sepNLNL = [buf]) := by
  cases h : findSep sepNLNL buf with
  | none =>
      constructor
      · simp [handleCAS, splitN2, h]
      · intro _
        simp [splitN2, h]
  | some i =>
      constructor
      · simp [handleCAS, splitN2, h]
      · intro hn
        simp [h] at hn

/-- C4 amended witness: a one-byte body lacks the separator, so the
handler panics on it. -/
theorem C4_amended_totality_witness :
    handleCAS [97] (proposeRound [] ⟨1, "q"⟩) = none ∧
    splitN2 [97] sepNLNL = [[97]] :=
  ⟨(C4_amended_totality [97] (proposeRound [] ⟨1, "q"⟩)).1.mpr (by decide),
   (C4_amended_totality [97] (proposeRound [] ⟨1, "q"⟩)).2 (by decide)⟩

/-- C5: when URL parsing of the request body fails, each of the four
membership handlers answers 400 with the parse error as body and invokes
no proposer membership operation (the invoked-target list is empty), so
membership is left unchanged. -/
theorem C5_membership_bad_request (parse : String → Except String URL) (body msg : String)
    (addA addP remP remA : URL → Option String)
    (h : parse body = Except.error msg) :
    handleAddAccepter parse body addA = (httpError msg statusBadRequest, []) ∧
    handleAddPreparer parse body addP = (httpError msg statusBadRequest, []) ∧
    handleRemovePreparer parse body remP = (httpError msg statusBadRequest, []) ∧
    handleRemoveAccepter parse body remA = (httpError msg statusBadRequest, []) := by
  refine ⟨?_, ?_, ?_, ?_⟩ <;>
    simp [handleAddAccepter, handleAddPreparer, handleRemovePreparer, handleRemoveAccepter, h]

/-- C5 witness: a concrete failing parse makes all four handlers answer
400 without invoking any membership operation. -/
theorem C5_membership_bad_request_witness :
    handleAddAccepter (fun _ => Except.error "bad url") "x" (fun _ => none)
      = (httpError "bad url" statusBadRequest, []) ∧
    handleAddPreparer (fun _ => Except.error "bad url") "x" (fun _ => none)
      = (httpError "bad url" statusBadRequest, []) ∧
    handleRemovePreparer (fun _ => Except.error "bad url") "x" (fun _ => none)
      = (httpError "bad url" statusBadRequest, []) ∧
    handleRemoveAccepter (fun _ => Except.error "bad url") "x" (fun _ => none)
      = (httpError "bad url" statusBadRequest, []) :=
  C5_membership_bad_request (fun _ => Except.error "bad url") "x" "bad url"
    (fun _ => none) (fun _ => none) (fun _ => none) (fun _ => none) rfl

/-- C8: the fast-forward-increment handler decodes the tombstone ballot
from the request headers, and on success encodes the returned Age into the
response headers as a (counter, proposerID) pair while the body is just
`"OK\n"` — Ballot and Age cross the boundary in headers, not the body. -/
theorem C8_ffi_headers (reqHeaders : List (String × String))
    (ffi : Ballot → Except ProposerError Ballot) (age : Ballot)
    (h : ffi (getBallot reqHeaders) = Except.ok age) :
    handleFastForwardIncrement reqHeaders ffi =
      { status := statusOK, body := RespBody.text "OK\n", headers := setAge age } ∧
    setAge age = [(headerAgeCounter, toString age.counter), (headerAgeID, age.id)] := by
  constructor
  · simp [handleFastForwardIncrement, h]
  · rfl

/-- C8 witness: a request carrying tombstone (5, "p") in headers; the
proposer returns Age (6, "p"), which comes back header-encoded. -/
theorem C8_ffi_headers_witness :
    handleFastForwardIncrement [(headerBallotCounter, "5"), (headerBallotID, "p")]
        (fun _ => Except.ok ⟨6, "p"⟩) =
      { status := statusOK, body := RespBody.text "OK\n", headers := setAge ⟨6, "p"⟩ } ∧
    setAge ⟨6, "p"⟩ = [(headerAgeCounter, toString (6 : Nat)), (headerAgeID, "p")] :=
  C8_ffi_headers [(headerBallotCounter, "5"), (headerBallotID, "p")]
    (fun _ => Except.ok ⟨6, "p"⟩) ⟨6, "p"⟩ rfl

end Httpapi
